import Mathlib

/-!
Verification of the tournament test-harness scripts
(`test_tournaments_fresh.py`, `test_tournaments.py`,
`stress_test_coordinator.py`) against their natural-language
specification.  The Python code is shallowly embedded: pure decision
logic becomes Lean functions, network interactions become explicit
parameters (booleans / optional payloads describing the transport
outcome), and wall-clock times are integer microsecond epoch ticks, as
in the source.
-/

namespace Micro2048

/-! ## String helpers

The scripts classify backend failures by Python's `in` substring test on
lowercased exception text.  `containsStr s pat` mirrors `pat in s`. -/

/-- True when `p` is a leading segment of `l` (character lists). -/
def leadsWith : List Char → List Char → Bool
  | [], _ => true
  | _ :: _, [] => false
  | p :: ps, c :: cs => p == c && leadsWith ps cs

/-- True when pattern `p` occurs contiguously inside `l`. -/
def subOccurs (p : List Char) : List Char → Bool
  | [] => leadsWith p []
  | c :: t => leadsWith p (c :: t) || subOccurs p t

/-- Mirror of Python's `pat in s` substring test. -/
def containsStr (s pat : String) : Bool :=
  subOccurs pat.data s.data

/-! ## Observed tournaments and scenario matching (C1)

`test_tournaments_fresh.py` queries `leaderboards` and matches each
created scenario back to an observed tournament purely by name and
host.  `verify_active_tournaments` (lines 294–331) filters on a
non-empty `leaderboardId`, keeps tournaments whose `host` equals the
test user, and then picks the first tournament whose `name` and `host`
match the scenario. -/

/-- One entry of the `leaderboards` query result, as consumed by the
verifier (`leaderboardId`, `name`, `host`). -/
structure ObservedTournament where
  leaderboardId : String
  name : String
  host : String
deriving DecidableEq

/-- Line 296: `[lb for lb in state["leaderboards"] if lb.get("leaderboardId")]`
— keep entries whose `leaderboardId` is truthy (non-empty). -/
def visibleTournaments (lbs : List ObservedTournament) : List ObservedTournament :=
  lbs.filter (fun lb => !(lb.leaderboardId == ""))

/-- Line 297: `[lb for lb in all_tournaments if lb.get("host") == self.username]`. -/
def myTournaments (lbs : List ObservedTournament) (username : String) :
    List ObservedTournament :=
  (visibleTournaments lbs).filter (fun lb => lb.host == username)

/-- Line 315: `next((t for t in my_tournaments if t.get("name") == name and
t.get("host") == self.username), None)` — the verifier's scenario match. -/
def matchingTournament (lbs : List ObservedTournament) (username name : String) :
    Option ObservedTournament :=
  (myTournaments lbs username).find? (fun t => t.name == name && t.host == username)

/-- Replace an observed tournament's identifier, leaving name and host fixed.
Used to state that scenario matching never depends on identifier values. -/
def withId (newId : String) (t : ObservedTournament) : ObservedTournament :=
  { t with leaderboardId := newId }

/-! ## Request outcomes and rejection classification (C2)

How `test_board_creation_validation` (lines 359–398) classifies a
board-creation attempt against `past_tournament` is decided by
`make_graphql_request` (lines 51–95): a response carrying GraphQL
errors returns `None` (lines 68–70), a timeout returns `None`
(lines 77–80), an HTTP status error such as a 500 returns `None`
(lines 81–91), and any other request failure returns `None`
(lines 92–95).  Only a clean `data` response yields a payload, so
`create_board` never raises on a transport failure or a service
rejection — every such failure surfaces as `create_board` returning
`None`. -/

/-- Backend outcomes of the `newBoard` mutation request: a timeout, an
HTTP status error, a response carrying GraphQL (service validation)
errors, or a clean response with `data`. -/
inductive RequestOutcome where
  | timeout : RequestOutcome
  | httpError (status : Nat) (detail : String) : RequestOutcome
  | graphqlErrors (msg : String) : RequestOutcome
  | success : RequestOutcome
deriving DecidableEq

/-- `make_graphql_request` returns a payload only for a clean `data`
response; GraphQL errors, timeouts, HTTP errors and all other request
failures are caught internally and return `None` (lines 58–95). -/
def graphqlRequestOk : RequestOutcome → Bool
  | .success => true
  | _ => false

/-- The outcomes the past-tournament validation branch
(lines 359–377) can report for one board-creation attempt. -/
inductive ValidationOutcome where
  | unexpectedSuccess : ValidationOutcome
  | unexpectedNone : ValidationOutcome
  | correctlyRejected : ValidationOutcome
  | unexpectedError : ValidationOutcome
deriving DecidableEq

/-- Lines 369–373 of `test_tournaments_fresh.py`: the substring test the
`except` arm applies to lowercased exception text — containing
`http error 500` and `runtime error`, or `expired`, or `not active`,
or `not found in cache`.  Since `create_board` raises no transport or
service failure (they all surface as `None`), this arm is dead code for
those outcomes. -/
def classifyExpiredRejection (errorMsg : String) : Bool :=
  (containsStr errorMsg "http error 500" && containsStr errorMsg "runtime error")
    || containsStr errorMsg "expired"
    || containsStr errorMsg "not active"
    || containsStr errorMsg "not found in cache"

/-- Lines 368–377: the classification the `except` arm would apply to
raised exception text, were an exception ever raised. -/
def exceptArmClassification (excText : String) : ValidationOutcome :=
  if classifyExpiredRejection excText then .correctlyRejected else .unexpectedError

/-! ## Scenario matrix and the activation-window policy (C3)

`create_multiple_test_tournaments` (lines 547–599) hard-codes four
scenarios relative to the creation-time clock (microseconds), each with
a constant `should_be_active` flag. -/

/-- One scenario record as stored in `created_tournaments`
(`name`, `start_time`, `end_time`, `should_be_active`; the host field is
always the test username and is omitted here). -/
structure Scenario where
  name : String
  start_time : Int
  end_time : Int
  should_be_active : Bool
deriving DecidableEq

/-- The `tournament_scenarios` list (lines 553–558) with
`current_time` the creation-time clock in microseconds. -/
def scenarioMatrix (current_time : Int) : List Scenario :=
  [⟨"past_tournament", current_time - 3600000000, current_time - 1800000000, false⟩,
   ⟨"future_tournament", current_time + 3600000000, current_time + 7200000000, false⟩,
   ⟨"active_tournament", 0, 0, true⟩,
   ⟨"eternal_tournament", 0, 0, true⟩]

/-- The spec's activation-window policy (section 4.4): a tournament is
active at time `now` iff `(start == 0 OR now >= start) AND
(end == 0 OR now <= end)`. -/
def specIsActive (start_time end_time now : Int) : Bool :=
  (start_time == 0 || decide (start_time ≤ now))
    && (end_time == 0 || decide (now ≤ end_time))

/-! ## Move submission payload (C4)

`make_moves` (lines 97–157) constructs its own move list: the fixed
direction pattern Down/Right/Down/Left cycled, paired with timestamps
`100000000 + i * 1000`, then JSON-encodes it as
`[["Down", "100000000"], ...]` (matching `json.dumps` output). -/

/-- `move_pattern = ["Down", "Right", "Down", "Left"]` (line 107). -/
def movePattern : List String := ["Down", "Right", "Down", "Left"]

/-- `move_pattern[i % len(move_pattern)]` (line 113). -/
def moveDirection (i : Nat) : String :=
  movePattern.getD (i % movePattern.length) ""

/-- `base_timestamp = 100000000` (line 111). -/
def baseTimestamp : Nat := 100000000

/-- The i-th move entry: direction paired with `base_timestamp + i * 1000`
(lines 112–115). -/
def moveEntry (i : Nat) : String × Nat :=
  (moveDirection i, baseTimestamp + i * 1000)

/-- The full `moves_list` for `num_moves = n`. -/
def movesList (n : Nat) : List (String × Nat) :=
  (List.range n).map moveEntry

/-- JSON rendering of a single `[direction, "timestamp"]` pair, as
`json.dumps` prints it (timestamps are stringified, line 114). -/
def encodeMove (m : String × Nat) : String :=
  "[\"" ++ m.1 ++ "\", \"" ++ toString m.2 ++ "\"]"

/-- The `moves` mutation argument: `json.dumps(moves_list)` (line 117). -/
def movesString (n : Nat) : String :=
  "[" ++ String.intercalate ", " ((movesList n).map encodeMove) ++ "]"

/-! ## Leaderboard score convergence check (C5)

`check_leaderboard_scores` (lines 410–466) queries each leaderboard
chain and inspects the returned `totalBoards` (lines 447–459). -/

/-- Per-chain leaderboard details used by the score check. -/
structure LBDetails where
  totalBoards : Nat
  totalPlayers : Nat
deriving DecidableEq

/-- Outcome the score check reports for one leaderboard. -/
inductive StreamVerdict where
  | streamingSuccessful : StreamVerdict
  | noBoardsRegistered : StreamVerdict
  | queryFailed : StreamVerdict
deriving DecidableEq

/-- Lines 449–459: when the chain query returns details, the check
passes iff `total_boards > 0`; a failed query is reported separately. -/
def classifyLeaderboardStream (details : Option LBDetails) : StreamVerdict :=
  match details with
  | some d => if d.totalBoards > 0 then .streamingSuccessful else .noBoardsRegistered
  | none => .queryFailed

/-! ## Convergence poller (C6) -/

/-- Result of a poll loop: converged on a satisfying state, or deadline
exceeded carrying the last observed state. -/
inductive PollResult (σ : Type) where
  | converged (s : σ) : PollResult σ
  | deadlineExceeded (last : σ) : PollResult σ
deriving DecidableEq

/-- Modelled from the spec: no `pollUntil` exists under `src/` (the
scripts use fixed `time.sleep` pacing); section 4.3 prescribes the loop
body.  `pollFrom pred fetch interval maxWait fuel k` evaluates the
predicate on `fetch k` at elapsed time `k * interval`; on success it
returns `converged` at once, otherwise it sleeps `interval` and, if the
new elapsed time exceeds `maxWait`, returns `deadlineExceeded` with the
last observed state; `fuel` bounds the recursion.  The second component
is the elapsed time at return. -/
def pollFrom {σ : Type} (pred : σ → Bool) (fetch : Nat → σ)
    (interval maxWait : Nat) : Nat → Nat → PollResult σ × Nat
  | 0, k => (.deadlineExceeded (fetch k), k * interval)
  | fuel + 1, k =>
    let s := fetch k
    if pred s then (.converged s, k * interval)
    else if maxWait < (k + 1) * interval then (.deadlineExceeded s, (k + 1) * interval)
    else pollFrom pred fetch interval maxWait fuel (k + 1)

/-- Modelled from the spec: `pollUntil` starts the loop at elapsed time
zero with enough fuel to reach the deadline (`maxWait + 1` iterations
always suffice when the interval is positive, since each failed
iteration advances elapsed time by at least one). -/
def pollUntil {σ : Type} (pred : σ → Bool) (fetch : Nat → σ)
    (maxWait interval : Nat) : PollResult σ × Nat :=
  pollFrom pred fetch interval maxWait (maxWait + 1) 0

/-! ## Board creation and existence confirmation (C7)

`test_tournaments_fresh.py`'s `create_board` (lines 673–728) submits the
`newBoard` mutation and then, when the mutation request succeeded,
re-queries `boards` and returns the id of the first board matching the
acting player and the target tournament.  The legacy
`test_tournaments.py` `create_board` (lines 183–210) reports success
directly from the mutation response. -/

/-- One entry of the `boards` query result. -/
structure BoardRec where
  boardId : String
  player : String
  leaderboardId : String
deriving DecidableEq

/-- Fresh-script board creation.  `mutationOk` is whether the `newBoard`
request returned a payload with `data`; `boards` is the follow-up
`boards` query result (`none` when that query failed).  Returns the
confirmed board id, or `none`. -/
def freshCreateBoard (mutationOk : Bool) (boards : Option (List BoardRec))
    (username tournamentId : String) : Option String :=
  if mutationOk then
    match boards with
    | some bs =>
      (bs.find? (fun b => b.player == username && b.leaderboardId == tournamentId)).map
        (fun b => b.boardId)
    | none => none
  else none

/-- Legacy-script board creation (`test_tournaments.py` lines 205–210):
success is reported directly from the mutation response, with no
follow-up query. -/
def legacyCreateBoard (mutationOk : Bool) : Bool :=
  mutationOk

/-- The past-tournament validation branch (lines 362–377): it calls
`create_board` and classifies a truthy board id as an unexpected
success (line 365) and `None` as the `returned None (unexpected)`
branch (line 367).  `create_board` never raises on a transport failure
or service rejection — `make_graphql_request` returns `None` for all of
them — so the `except` arm (lines 368–377, `exceptArmClassification`)
is unreachable for those outcomes and the attempt is never counted as
correctly rejected. -/
def pastTournamentClassification (mutation : RequestOutcome)
    (boards : Option (List BoardRec)) (username tournamentId : String) :
    ValidationOutcome :=
  match freshCreateBoard (graphqlRequestOk mutation) boards username tournamentId with
  | some _ => .unexpectedSuccess
  | none => .unexpectedNone

/-! ## Scenario-run orchestration (C8)

`create_multiple_test_tournaments` (lines 547–599) iterates the
scenario matrix in order; on the first failed creation it logs and
`return None` from inside the loop, so later scenarios are never
attempted.  `creationOk` abstracts the per-scenario mutation outcome.
The result pairs the `created_tournaments` value (`none` on abort) with
the list of scenario names actually attempted. -/

def runScenarios (creationOk : String → Bool) :
    List Scenario → Option (List Scenario) × List String
  | [] => (some [], [])
  | s :: rest =>
    if creationOk s.name then
      match runScenarios creationOk rest with
      | (some created, attempted) => (some (s :: created), s.name :: attempted)
      | (none, attempted) => (none, s.name :: attempted)
    else (none, [s.name])

/-! ## Stress-test tournament provisioning (C9)

`create_stress_test_tournaments` (lines 110–127) builds
`tournament_configs` with numeric names and `start_time = 0`,
`end_time = 0` for every tournament. -/

/-- One entry of `tournament_configs`. -/
structure TournamentConfig where
  name : String
  start_time : Int
  end_time : Int
  shard_number : Nat
deriving DecidableEq

/-- Lines 118–127: `[{"name": f"{i}", "start_time": 0, "end_time": 0,
"shard_number": shard_count} for i in range(num_tournaments)]`. -/
def tournamentConfigs (numTournaments shardCount : Nat) : List TournamentConfig :=
  (List.range numTournaments).map (fun i => ⟨toString i, 0, 0, shardCount⟩)

/-! ## Coordinator CLI argument validation (C10)

`main` of `stress_test_coordinator.py` (lines 365–390) parses integer
arguments and, before constructing the coordinator or touching the
network, exits with code 1 when `--tournaments` is outside [1, 10] or
`--shards` is outside [1, 32]; otherwise it runs the setup. -/

/-- What the CLI does after parsing: exit with an error code before any
network activity, or run the coordinator setup. -/
inductive CliOutcome where
  | exitError (code : Nat) : CliOutcome
  | runSetup (tournaments shards : Int) : CliOutcome
deriving DecidableEq

/-- Lines 377–388: the argument checks, in source order, ahead of
`run_coordinator_setup`. -/
def coordinatorMain (tournaments shards : Int) : CliOutcome :=
  if tournaments < 1 ∨ 10 < tournaments then .exitError 1
  else if shards < 1 ∨ 32 < shards then .exitError 1
  else .runSetup tournaments shards

/-- Only `run_coordinator_setup` performs network requests; the
validation exits happen before the coordinator is even constructed. -/
def issuesNetworkRequests : CliOutcome → Bool
  | .exitError _ => false
  | .runSetup _ _ => true

/-! ## Helper lemmas -/

/-- `specIsActive` unfolded to its propositional form. -/
theorem specIsActive_eq_true_iff (s e now : Int) :
    specIsActive s e now = true ↔ ((s = 0 ∨ s ≤ now) ∧ (e = 0 ∨ now ≤ e)) := by
  simp [specIsActive]

/-- One step of scenario matching: the head is selected iff it has a
non-empty identifier and the scenario's host and name. -/
theorem matchingTournament_cons (x : ObservedTournament) (xs : List ObservedTournament)
    (u n : String) :
    matchingTournament (x :: xs) u n =
      if ¬x.leaderboardId = "" ∧ x.host = u ∧ x.name = n then some x
      else matchingTournament xs u n := by
  simp only [matchingTournament, myTournaments, visibleTournaments, List.filter_cons]
  by_cases hid : x.leaderboardId = ""
  · simp [hid]
  · by_cases hh : x.host = u
    · by_cases hn : x.name = n
      · simp [hid, hh, hn]
      · simp [hid, hh, hn]
    · simp [hid, hh]

/-- Scenario matching commutes with any renaming of observed
identifiers that preserves identifier emptiness: the match outcome is
determined by names and hosts alone. -/
theorem matching_independent_of_ids (g : String → String) (hg : ∀ x, g x = "" ↔ x = "")
    (u n : String) (lbs : List ObservedTournament) :
    matchingTournament (lbs.map (fun x => withId (g x.leaderboardId) x)) u n
      = (matchingTournament lbs u n).map (fun x => withId (g x.leaderboardId) x) := by
  induction lbs with
  | nil => rfl
  | cons x xs ih =>
    rw [List.map_cons, matchingTournament_cons, matchingTournament_cons]
    by_cases hc : ¬x.leaderboardId = "" ∧ x.host = u ∧ x.name = n
    · have hc' : ¬(withId (g x.leaderboardId) x).leaderboardId = ""
          ∧ (withId (g x.leaderboardId) x).host = u
          ∧ (withId (g x.leaderboardId) x).name = n :=
        ⟨fun h => hc.1 ((hg _).mp h), hc.2.1, hc.2.2⟩
      rw [if_pos hc', if_pos hc]; rfl
    · have hc' : ¬(¬(withId (g x.leaderboardId) x).leaderboardId = ""
          ∧ (withId (g x.leaderboardId) x).host = u
          ∧ (withId (g x.leaderboardId) x).name = n) := by
        rintro ⟨ha, hb, hn⟩
        exact hc ⟨fun h => ha ((hg _).mpr h), hb, hn⟩
      rw [if_neg hc', if_neg hc]; exact ih

/-- With a never-true predicate, the poll loop always lands in a
`deadlineExceeded` exit whose elapsed time first exceeds `maxWait`. -/
theorem pollFrom_deadline {σ : Type} (pred : σ → Bool) (fetch : Nat → σ)
    (interval maxWait : Nat) (hnever : ∀ s, pred s = false) :
    ∀ fuel k, k * interval ≤ maxWait → maxWait < (k + fuel) * interval →
      ∃ m, pollFrom pred fetch interval maxWait fuel k
              = (.deadlineExceeded (fetch m), (m + 1) * interval)
            ∧ k ≤ m ∧ m * interval ≤ maxWait ∧ maxWait < (m + 1) * interval := by
  intro fuel
  induction fuel with
  | zero =>
    intro k hle hlt
    simp only [Nat.add_zero] at hlt
    exact absurd hlt (Nat.not_lt.mpr hle)
  | succ fuel ih =>
    intro k hle hlt
    by_cases hstop : maxWait < (k + 1) * interval
    · refine ⟨k, ?_, Nat.le_refl k, hle, hstop⟩
      simp [pollFrom, hnever, hstop]
    · have hle' : (k + 1) * interval ≤ maxWait := Nat.not_lt.mp hstop
      have hlt' : maxWait < ((k + 1) + fuel) * interval := by
        have : (k + 1) + fuel = k + (fuel + 1) := by omega
        rw [this]; exact hlt
      obtain ⟨m, hm, hkm, hm1, hm2⟩ := ih (k + 1) hle' hlt'
      refine ⟨m, ?_, Nat.le_of_succ_le hkm, hm1, hm2⟩
      simp [pollFrom, hnever, hstop, hm]

/-! ## Claim theorems -/

/-- C1: the verifier matches an observed tournament to a scenario only
by its (name, host) pair — the matched tournament always carries the
scenario's own name and host, so a scenario with a distinct
(name, host) pair can never be attributed the same observed tournament
— and the outcome is independent of observed identifier values (any
emptiness-preserving renaming of identifiers renames the match
without changing which tournament is picked); the creation-mutation
result is not an input to matching at all. -/
theorem verifier_matches_only_by_name_host
    (lbs : List ObservedTournament) (n1 h1 n2 h2 : String) (t : ObservedTournament)
    (g : String → String) (hg : ∀ x, g x = "" ↔ x = "")
    (hne : (n1, h1) ≠ (n2, h2))
    (hm : matchingTournament lbs h1 n1 = some t) :
    t.name = n1 ∧ t.host = h1 ∧ ¬(t.name = n2 ∧ t.host = h2) ∧
    matchingTournament (lbs.map (fun x => withId (g x.leaderboardId) x)) h1 n1
      = some (withId (g t.leaderboardId) t) := by
  have hp := List.find?_some hm
  simp only [Bool.and_eq_true, beq_iff_eq] at hp
  obtain ⟨htn, hth⟩ := hp
  refine ⟨htn, hth, ?_, ?_⟩
  · rintro ⟨hn2, hh2⟩
    exact hne (by rw [htn.symm.trans hn2, hth.symm.trans hh2])
  · rw [matching_independent_of_ids g hg, hm]; rfl

/-- C1 witness: two observed tournaments hosted by `u` with distinct
names; the verifier's match for scenario `("alpha", "u")` returns the
`alpha` tournament and cannot carry scenario `("beta", "u")`'s pair. -/
theorem verifier_matches_only_by_name_host_witness :
    (⟨"id1", "alpha", "u"⟩ : ObservedTournament).name = "alpha" ∧
    (⟨"id1", "alpha", "u"⟩ : ObservedTournament).host = "u" ∧
    ¬((⟨"id1", "alpha", "u"⟩ : ObservedTournament).name = "beta"
        ∧ (⟨"id1", "alpha", "u"⟩ : ObservedTournament).host = "u") := by
  have h := verifier_matches_only_by_name_host
    [⟨"id1", "alpha", "u"⟩, ⟨"id2", "beta", "u"⟩] "alpha" "u" "beta" "u"
    ⟨"id1", "alpha", "u"⟩ (fun s => s) (fun _ => Iff.rfl) (by decide) (by decide)
  exact ⟨h.1, h.2.1, h.2.2.1⟩

/-- C2 counterexample: an explicit service validation rejection (a
GraphQL-errors response) and a transport failure (an HTTP 500) are
classified as the same outcome by the past-tournament validation
branch — both collapse to `create_board` returning `None` and land in
the `returned None (unexpected)` branch, which is not a
correct-rejection verdict — refuting the claim that the two are never
classified as the same outcome. -/
theorem board_rejection_conflation_counterexample :
    pastTournamentClassification (.graphqlErrors "tournament not active") none "hello" "t1"
      = pastTournamentClassification (.httpError 500 "runtime error in contract")
          none "hello" "t1" ∧
    pastTournamentClassification (.graphqlErrors "tournament not active") none "hello" "t1"
      = .unexpectedNone ∧
    pastTournamentClassification (.graphqlErrors "tournament not active") none "hello" "t1"
      ≠ .correctlyRejected := by
  exact ⟨rfl, rfl, by decide⟩

/-- C2 amended: every failed board-creation attempt against a
tournament whose expected activation state is false — whether the
service explicitly rejected it (a GraphQL-errors response) or the
transport failed (timeout or HTTP error such as a 500) — is classified
as the same outcome: `make_graphql_request` returns `None` for all of
them, `create_board` therefore returns `None` without raising, the
attempt lands in the `returned None (unexpected)` branch, and it is
never counted as correctly rejected; the substring `except` classifier
of lines 368–377 never runs for these outcomes. -/
theorem past_rejection_never_counted (r1 r2 : RequestOutcome)
    (b1 b2 : Option (List BoardRec)) (u tid : String)
    (h1 : graphqlRequestOk r1 = false) (h2 : graphqlRequestOk r2 = false) :
    pastTournamentClassification r1 b1 u tid = .unexpectedNone ∧
    pastTournamentClassification r1 b1 u tid
      = pastTournamentClassification r2 b2 u tid ∧
    pastTournamentClassification r1 b1 u tid ≠ .correctlyRejected ∧
    pastTournamentClassification r1 b1 u tid ≠ .unexpectedError := by
  have e1 : pastTournamentClassification r1 b1 u tid = .unexpectedNone := by
    unfold pastTournamentClassification
    rw [h1]
    rfl
  have e2 : pastTournamentClassification r2 b2 u tid = .unexpectedNone := by
    unfold pastTournamentClassification
    rw [h2]
    rfl
  refine ⟨e1, e1.trans e2.symm, ?_, ?_⟩
  · rw [e1]; exact fun h => ValidationOutcome.noConfusion h
  · rw [e1]; exact fun h => ValidationOutcome.noConfusion h

/-- C2 witness: a service validation rejection and a timeout, both
against the expired tournament — same classified outcome, never a
correct-rejection verdict. -/
theorem past_rejection_never_counted_witness :
    graphqlRequestOk (.graphqlErrors "leaderboard expired") = false ∧
    graphqlRequestOk .timeout = false ∧
    pastTournamentClassification (.graphqlErrors "leaderboard expired")
        (some []) "test_abc" "lb1" = .unexpectedNone ∧
    pastTournamentClassification (.graphqlErrors "leaderboard expired")
        (some []) "test_abc" "lb1"
      = pastTournamentClassification .timeout (some []) "test_abc" "lb1" ∧
    pastTournamentClassification (.graphqlErrors "leaderboard expired")
        (some []) "test_abc" "lb1" ≠ .correctlyRejected := by
  have h := past_rejection_never_counted (.graphqlErrors "leaderboard expired") .timeout
    (some []) (some []) "test_abc" "lb1" rfl rfl
  exact ⟨rfl, rfl, h.1, h.2.1, h.2.2.1⟩

/-- C3 counterexample: the scenario flags are fixed at creation time,
not recomputed from the clock.  With creation clock `10^10` µs, at a
verification instant two hours later the `future_tournament` scenario
(index 1 of the matrix) is inside its window — the spec formula says
active — while its stored expected-active flag still says `false`. -/
theorem scenario_flag_counterexample :
    ((scenarioMatrix 10000000000).getD 1 ⟨"", 0, 0, true⟩).should_be_active = false ∧
    specIsActive ((scenarioMatrix 10000000000).getD 1 ⟨"", 0, 0, true⟩).start_time
      ((scenarioMatrix 10000000000).getD 1 ⟨"", 0, 0, true⟩).end_time
      17200000000 = true := by
  decide

/-- C3 amended: for every scenario of the validation matrix, the stored
expected-active flag agrees with the spec's activation formula
evaluated at any verification instant `t` from creation up to (but
excluding) the future tournament's start, for any realistic creation
clock (later than `3.6·10^9` µs, so that no nonzero window bound
degenerates to the sentinel 0). -/
theorem scenario_flags_match_policy (c t : Int)
    (hc : 3600000000 < c) (h1 : c ≤ t) (h2 : t < c + 3600000000) :
    ∀ s ∈ scenarioMatrix c, s.should_be_active = specIsActive s.start_time s.end_time t := by
  intro s hs
  simp only [scenarioMatrix, List.mem_cons, List.not_mem_nil, or_false] at hs
  rcases hs with h | h | h | h <;> subst h
  · cases hb : specIsActive (c - 3600000000) (c - 1800000000) t
    · rfl
    · exact absurd ((specIsActive_eq_true_iff _ _ _).mp hb) (by omega)
  · cases hb : specIsActive (c + 3600000000) (c + 7200000000) t
    · rfl
    · exact absurd ((specIsActive_eq_true_iff _ _ _).mp hb) (by omega)
  · exact ((specIsActive_eq_true_iff 0 0 t).mpr (by omega)).symm
  · exact ((specIsActive_eq_true_iff 0 0 t).mpr (by omega)).symm

/-- C3 witness: the `past_tournament` scenario at creation clock
`10^10` µs, verified one microsecond later: its flag `false` matches the
formula. -/
theorem scenario_flags_match_policy_witness :
    (3600000000 : Int) < 10000000000 ∧
    (10000000000 : Int) ≤ 10000000001 ∧
    (10000000001 : Int) < 10000000000 + 3600000000 ∧
    (⟨"past_tournament", 6400000000, 8200000000, false⟩ : Scenario) ∈ scenarioMatrix 10000000000 ∧
    (⟨"past_tournament", 6400000000, 8200000000, false⟩ : Scenario).should_be_active
      = specIsActive 6400000000 8200000000 10000000001 := by
  refine ⟨by decide, by decide, by decide, by decide, ?_⟩
  exact scenario_flags_match_policy 10000000000 10000000001
    (by decide) (by decide) (by decide) _ (by decide)

/-- C4: the `moves` payload `make_moves` submits is the JSON encoding of
an ordered list of exactly `n` entries, each a direction token from the
fixed pattern paired 1:1 with a timestamp, and consecutive timestamps
strictly increase — hence no sequence with non-monotonic timestamps is
ever placed on the wire (the rejection clause holds vacuously: the
executor constructs its own sequence and never builds a non-monotonic
one). -/
theorem make_moves_payload (n : Nat) :
    (movesList n).length = n ∧
    (∀ m ∈ movesList n, m.1 ∈ movePattern) ∧
    List.Chain' (fun a b : String × Nat => a.2 < b.2) (movesList n) ∧
    movesString n = "[" ++ String.intercalate ", " ((movesList n).map encodeMove) ++ "]" := by
  refine ⟨by simp [movesList], ?_, ?_, rfl⟩
  · intro m hm
    simp only [movesList, List.mem_map, List.mem_range] at hm
    obtain ⟨i, _, rfl⟩ := hm
    have h4 : i % 4 = 0 ∨ i % 4 = 1 ∨ i % 4 = 2 ∨ i % 4 = 3 := by omega
    rcases h4 with h | h | h | h <;>
      simp [moveEntry, moveDirection, movePattern, h]
  · rw [movesList, List.chain'_map]
    cases n with
    | zero => simp
    | succ k =>
      rw [List.chain'_range_succ]
      intro m _
      simp only [moveEntry]
      omega

/-- C4 witness: the two-move payload — entries present, directions from
the pattern, strictly increasing timestamps. -/
theorem make_moves_payload_witness :
    (movesList 2).length = 2 ∧
    (("Down", 100000000) : String × Nat) ∈ movesList 2 ∧
    (("Down", 100000000) : String × Nat).1 ∈ movePattern ∧
    List.Chain' (fun a b : String × Nat => a.2 < b.2) (movesList 2) := by
  have h := make_moves_payload 2
  exact ⟨h.1, by decide, h.2.1 _ (by decide), h.2.2.1⟩

/-- C5 counterexample: with a pre-mutation baseline of 0 boards and an
observed aggregate of 5 boards — an increase of five, not one — the
score check still reports streaming success: it does not require the
count to increase by exactly one. -/
theorem leaderboard_check_counterexample :
    classifyLeaderboardStream (some ⟨5, 1⟩) = .streamingSuccessful ∧ (5 : Nat) ≠ 0 + 1 := by
  exact ⟨rfl, by decide⟩

/-- C5 amended: the convergence check on the tournament's aggregate
state only requires `totalBoards` to be positive; it keeps no
pre-mutation baseline and accepts any increase. -/
theorem leaderboard_check_is_positivity (d : LBDetails) :
    classifyLeaderboardStream (some d) = .streamingSuccessful ↔ 0 < d.totalBoards := by
  by_cases h : 0 < d.totalBoards <;> simp [classifyLeaderboardStream, h]

/-- C5 witness: a concrete aggregate with three boards. -/
theorem leaderboard_check_is_positivity_witness :
    classifyLeaderboardStream (some ⟨3, 1⟩) = .streamingSuccessful ↔ 0 < (3 : Nat) :=
  leaderboard_check_is_positivity ⟨3, 1⟩

/-- C6: `pollUntil` under a predicate that never becomes true returns
`deadlineExceeded` carrying an observed state, at an elapsed time
strictly past `maxWait` but no later than `maxWait + interval`; it
never returns `converged` and, being a total function, never throws. -/
theorem pollUntil_deadline {σ : Type} (pred : σ → Bool) (fetch : Nat → σ)
    (maxWait interval : Nat) (hi : 0 < interval) (hnever : ∀ s, pred s = false) :
    ∃ m T, pollUntil pred fetch maxWait interval = (.deadlineExceeded (fetch m), T)
      ∧ maxWait < T ∧ T ≤ maxWait + interval := by
  have hfuel : maxWait < (0 + (maxWait + 1)) * interval := by
    calc maxWait < maxWait + 1 := Nat.lt_succ_self _
    _ ≤ (maxWait + 1) * interval := Nat.le_mul_of_pos_right _ hi
    _ = (0 + (maxWait + 1)) * interval := by rw [Nat.zero_add]
  obtain ⟨m, hm, _, hm1, hm2⟩ :=
    pollFrom_deadline pred fetch interval maxWait hnever (maxWait + 1) 0
      (by simp) hfuel
  refine ⟨m, (m + 1) * interval, hm, hm2, ?_⟩
  calc (m + 1) * interval = m * interval + interval := Nat.succ_mul m interval
  _ ≤ maxWait + interval := Nat.add_le_add_right hm1 interval

/-- C6 witness: polling the identity fetch with an always-false
predicate, `maxWait = 5`, `interval = 2`: the deadline verdict arrives
at elapsed time in `(5, 7]`. -/
theorem pollUntil_deadline_witness :
    ∃ m T, pollUntil (fun _ : Nat => false) (fun k => k) 5 2
        = (.deadlineExceeded ((fun k : Nat => k) m), T)
      ∧ 5 < T ∧ T ≤ 5 + 2 :=
  pollUntil_deadline (fun _ => false) (fun k => k) 5 2 (by decide) (fun _ => rfl)

/-- C7 counterexample: the legacy `test_tournaments.py` `create_board`
reports the board as created from the mutation acknowledgement alone —
even in a situation where the follow-up `boards` query (which it never
makes) would find no board for the player and tournament, as the fresh
script's query-confirmed version shows. -/
theorem board_confirmation_counterexample :
    legacyCreateBoard true = true ∧
    freshCreateBoard true (some []) "hello" "t1" = none := by
  exact ⟨rfl, rfl⟩

/-- C7 amended: `test_tournaments_fresh.py` confirms existence only via
the follow-up query — any board id it returns is backed by a queried
board matching the acting player and the target tournament — while
`test_tournaments.py`'s legacy `create_board` reports success exactly
when the mutation response carried data, with no follow-up query. -/
theorem board_confirmed_by_query (mo : Bool) (bs : List BoardRec)
    (u tid bid : String)
    (h : freshCreateBoard mo (some bs) u tid = some bid) :
    (∃ b ∈ bs, b.boardId = bid ∧ b.player = u ∧ b.leaderboardId = tid) ∧
    legacyCreateBoard mo = mo := by
  refine ⟨?_, rfl⟩
  cases mo with
  | false => exact Option.noConfusion h
  | true =>
    have h' : (bs.find? (fun b => b.player == u && b.leaderboardId == tid)).map
        (fun b => b.boardId) = some bid := h
    cases hf : bs.find? (fun b => b.player == u && b.leaderboardId == tid) with
    | none => rw [hf] at h'; exact Option.noConfusion h'
    | some b =>
      rw [hf] at h'
      simp at h'
      have hmem := List.mem_of_find?_eq_some hf
      have hp := List.find?_some hf
      simp only [Bool.and_eq_true, beq_iff_eq] at hp
      exact ⟨b, hmem, h', hp.1, hp.2⟩

/-- C7 witness: a confirmed creation — the mutation succeeded and the
follow-up query holds a matching board, whose id is what is returned. -/
theorem board_confirmed_by_query_witness :
    freshCreateBoard true (some [⟨"b1", "hello", "t1"⟩]) "hello" "t1" = some "b1" ∧
    ((∃ b ∈ [(⟨"b1", "hello", "t1"⟩ : BoardRec)],
        b.boardId = "b1" ∧ b.player = "hello" ∧ b.leaderboardId = "t1") ∧
      legacyCreateBoard true = true) := by
  refine ⟨by decide, ?_⟩
  exact board_confirmed_by_query true [⟨"b1", "hello", "t1"⟩] "hello" "t1" "b1" (by decide)

/-- C8 counterexample: when the very first scenario's creation fails,
`create_multiple_test_tournaments` returns `None` immediately: of the
four matrix scenarios only one was attempted, so the siblings are
neither executed nor reported — a single scenario's failure aborts the
remaining scenarios, refuting the claim. -/
theorem scenario_abort_counterexample :
    (runScenarios (fun n => !(n == "past_tournament")) (scenarioMatrix 10000000000)).1
        = none ∧
    (runScenarios (fun n => !(n == "past_tournament")) (scenarioMatrix 10000000000)).2
        = ["past_tournament"] ∧
    (scenarioMatrix 10000000000).length = 4 := by
  decide

/-- C8 amended: scenario creation is fail-fast — whenever a scenario's
creation fails after a prefix of successful ones, the run returns no
scenario list and the attempted scenarios are exactly that prefix plus
the failing one; every later sibling is skipped.  (The stress
coordinator's `create_stress_test_tournaments` aborts the same way.) -/
theorem scenario_run_fail_fast (f : String → Bool) (pre post : List Scenario)
    (s : Scenario) (hpre : ∀ t ∈ pre, f t.name = true) (hs : f s.name = false) :
    (runScenarios f (pre ++ s :: post)).1 = none ∧
    (runScenarios f (pre ++ s :: post)).2 = pre.map (fun t => t.name) ++ [s.name] := by
  induction pre with
  | nil => simp [runScenarios, hs]
  | cons t ts ih =>
    have hih := ih (fun x hx => hpre x (List.mem_cons_of_mem _ hx))
    have hft : f t.name = true := hpre t (List.mem_cons_self _ _)
    rcases hrs : runScenarios f (ts ++ s :: post) with ⟨a, b⟩
    rw [hrs] at hih
    simp only at hih
    obtain ⟨ha, hb⟩ := hih
    subst ha
    simp [runScenarios, hft, hrs, hb]

/-- C8 witness: a one-scenario successful prefix, then a failing
scenario, then a skipped sibling. -/
theorem scenario_run_fail_fast_witness :
    ((fun n => !(n == "blocked")) "ready" = true) ∧
    ((fun n => !(n == "blocked")) "blocked" = false) ∧
    (runScenarios (fun n => !(n == "blocked"))
        ([⟨"ready", 0, 0, true⟩] ++ (⟨"blocked", 0, 0, true⟩ : Scenario)
          :: [⟨"later", 0, 0, true⟩])).1 = none ∧
    (runScenarios (fun n => !(n == "blocked"))
        ([⟨"ready", 0, 0, true⟩] ++ (⟨"blocked", 0, 0, true⟩ : Scenario)
          :: [⟨"later", 0, 0, true⟩])).2
      = [(⟨"ready", 0, 0, true⟩ : Scenario)].map (fun t => t.name) ++ ["blocked"] := by
  have h := scenario_run_fail_fast (fun n => !(n == "blocked"))
    [⟨"ready", 0, 0, true⟩] [⟨"later", 0, 0, true⟩] ⟨"blocked", 0, 0, true⟩
    (by decide) (by decide)
  exact ⟨by decide, by decide, h.1, h.2⟩

/-- C9: in bulk-provisioning mode every one of the `n` tournament
configurations carries the permissive always-active window: start time
and end time are both 0 (no lower, no upper bound). -/
theorem stress_configs_always_active (n s : Nat) :
    (tournamentConfigs n s).length = n ∧
    ∀ c ∈ tournamentConfigs n s, c.start_time = 0 ∧ c.end_time = 0 := by
  constructor
  · simp [tournamentConfigs]
  · intro c hc
    simp only [tournamentConfigs, List.mem_map, List.mem_range] at hc
    obtain ⟨i, _, rfl⟩ := hc
    exact ⟨rfl, rfl⟩

/-- C9 witness: the default bulk run (3 tournaments, 8 shards); the
first configuration has the zero window. -/
theorem stress_configs_always_active_witness :
    (tournamentConfigs 3 8).length = 3 ∧
    (⟨"0", 0, 0, 8⟩ : TournamentConfig) ∈ tournamentConfigs 3 8 ∧
    (⟨"0", 0, 0, 8⟩ : TournamentConfig).start_time = 0 ∧
    (⟨"0", 0, 0, 8⟩ : TournamentConfig).end_time = 0 := by
  have h := stress_configs_always_active 3 8
  have hm : (⟨"0", 0, 0, 8⟩ : TournamentConfig) ∈ tournamentConfigs 3 8 := by decide
  exact ⟨h.1, hm, (h.2 _ hm).1, (h.2 _ hm).2⟩

/-- C10: the coordinator CLI validates its numeric arguments before any
network operation — a tournament count outside [1, 10] or a shard count
outside [1, 32] exits with code 1 without issuing any request, and the
setup runs exactly for values inside both bounds. -/
theorem coordinator_cli_validation (t s : Int) :
    ((t < 1 ∨ 10 < t ∨ s < 1 ∨ 32 < s) →
      coordinatorMain t s = .exitError 1 ∧
      issuesNetworkRequests (coordinatorMain t s) = false) ∧
    ((1 ≤ t ∧ t ≤ 10 ∧ 1 ≤ s ∧ s ≤ 32) →
      coordinatorMain t s = .runSetup t s ∧
      issuesNetworkRequests (coordinatorMain t s) = true) := by
  constructor
  · intro h
    by_cases h1 : t < 1 ∨ 10 < t
    · rw [coordinatorMain, if_pos h1]
      exact ⟨rfl, rfl⟩
    · have h2 : s < 1 ∨ 32 < s := by omega
      rw [coordinatorMain, if_neg h1, if_pos h2]
      exact ⟨rfl, rfl⟩
  · rintro ⟨ha, hb, hc, hd⟩
    have h1 : ¬(t < 1 ∨ 10 < t) := by omega
    have h2 : ¬(s < 1 ∨ 32 < s) := by omega
    rw [coordinatorMain, if_neg h1, if_neg h2]
    exact ⟨rfl, rfl⟩

/-- C10 witness: zero tournaments is rejected with exit code 1 and no
request; the default (3 tournaments, 8 shards) runs the setup. -/
theorem coordinator_cli_validation_witness :
    ((0 : Int) < 1 ∨ 10 < (0 : Int) ∨ (8 : Int) < 1 ∨ 32 < (8 : Int)) ∧
    coordinatorMain 0 8 = .exitError 1 ∧
    issuesNetworkRequests (coordinatorMain 0 8) = false ∧
    coordinatorMain 3 8 = .runSetup 3 8 := by
  have hout := (coordinator_cli_validation 0 8).1 (Or.inl (by decide))
  have hin := (coordinator_cli_validation 3 8).2 ⟨by decide, by decide, by decide, by decide⟩
  exact ⟨Or.inl (by decide), hout.1, hout.2, hin.1⟩

end Micro2048
